import Mathlib

/-!
# Verification of the Todo persistence and mutation layer

Shallow embedding of the todo application from this repository.

The repository's `src/` tree contains the React/TypeScript frontend
(`frontend/src/api.ts`, `App.tsx`, `components/TodoForm.tsx`,
`components/TodoList.tsx`) and the README.  The backend persistence layer
(`backend/app/crud.py`, `backend/app/routers/todos.py`, `backend/app/db.py`)
is referenced by the README and by the spec but its code is not present under
`src/`; the `TodoStore` operations below are therefore modelled from the
spec's operation contract (§4.1, §6, §7), while the frontend functions are
embedded directly from the TypeScript source.
-/

namespace Todos

/-- The Todo entity: integer `id` assigned by the store, text `title`,
boolean `completed` (spec §3; table with columns `id`, `title`, `completed`). -/
structure Todo where
  id : Nat
  title : String
  completed : Bool
deriving DecidableEq, Repr

/-- The error taxonomy of the store (spec §7): `ValidationError`, `NotFound`,
`StorageError`. -/
inductive Err where
  | ValidationError
  | NotFound
  | StorageError
deriving DecidableEq, Repr

/-- The persisted state owned by `TodoStore`: the table rows plus the next
store-assigned id (ids are monotonically increasing and never reused,
spec §3). Rows are kept in insertion order; since each insert uses a fresh
id larger than all previous ones, insertion order is ascending-id order. -/
structure Store where
  rows : List Todo
  nextId : Nat
deriving DecidableEq, Repr

/-- Keyset pagination parameters `{limit, after_id}` (spec §4.1 List). -/
structure Pagination where
  limit : Nat
  after_id : Nat
deriving DecidableEq, Repr

/-- Optional fields of a partial update `{title?, completed?}`
(spec §6; mirrors `Partial<Pick<Todo, 'title' | 'completed'>>` in
`frontend/src/api.ts`). -/
structure UpdateFields where
  title : Option String
  completed : Option Bool
deriving DecidableEq, Repr

/-- Whitespace trimming from both ends of a string, modelling JS
`String.prototype.trim()` (used by `frontend/src/components/TodoForm.tsx`)
and the trimming the spec requires of the store (§4.1); defined on the
character list so that it is fully executable. -/
def strTrim (s : String) : String :=
  ⟨((s.data.dropWhile Char.isWhitespace).reverse.dropWhile Char.isWhitespace).reverse⟩

/-- One clause of the dynamic `SET` assignment list built for a partial
update (spec §9: "an explicit builder that starts from an empty assignment
set and appends one clause per present field"). -/
inductive Assignment where
  | setTitle (v : String)
  | setCompleted (v : Bool)
deriving DecidableEq, Repr

/-- Modelled from the spec: the dynamic assignment-set builder of
`backend/app/crud.py` (not under `src/`): starts from the empty assignment
set and appends one clause per present field (spec §9). -/
def buildAssignments (u : UpdateFields) : List Assignment :=
  (match u.title with
   | some v => [Assignment.setTitle v]
   | none => []) ++
  (match u.completed with
   | some v => [Assignment.setCompleted v]
   | none => [])

/-- Apply one `SET` clause to a row. -/
def Todo.applyAssignment (t : Todo) (a : Assignment) : Todo :=
  match a with
  | .setTitle v => { t with title := v }
  | .setCompleted v => { t with completed := v }

/-- Apply a whole assignment list to a row. -/
def Todo.applyAssignments (t : Todo) (l : List Assignment) : Todo :=
  l.foldl Todo.applyAssignment t

/-- Modelled from the spec: update validation of `backend/app/crud.py`
(not under `src/`): at least one of `title`/`completed` must be present;
if `title` is present it must be non-empty after trimming (spec §4.1). -/
def validUpdate (u : UpdateFields) : Bool :=
  !(buildAssignments u).isEmpty &&
  (match u.title with
   | some v => !(strTrim v == "")
   | none => true)

/-- Modelled from the spec: `List(pagination?)` of the missing
`backend/app/crud.py`: ordered sequence ascending by `id`
(`SELECT ... ORDER BY id`); with `{limit, after_id}` supplied, at most
`limit` rows with `id > after_id` (spec §4.1). Rows are stored in
ascending-id order (see `Store`), so the row list is read off directly. -/
def TodoStore.list (s : Store) (pag : Option Pagination) : List Todo :=
  match pag with
  | none => s.rows
  | some p => (s.rows.filter (fun t => decide (p.after_id < t.id))).take p.limit

/-- Modelled from the spec: `Get(id)` of the missing `backend/app/crud.py`:
the Todo with that id, or a not-found signal (spec §4.1, §6). -/
def TodoStore.get (s : Store) (id : Nat) : Except Err Todo :=
  match s.rows.find? (fun t => t.id == id) with
  | some t => Except.ok t
  | none => Except.error Err.NotFound

/-- Modelled from the spec: `Create(title)` of the missing
`backend/app/crud.py`: title must be non-empty after trimming whitespace,
else `ValidationError`; on success a new row is inserted with the
store-assigned id, `completed = false`, and the trimmed title, and the full
new Todo is returned (spec §4.1, §8). -/
def TodoStore.create (s : Store) (title : String) : Except Err (Todo × Store) :=
  if strTrim title == "" then
    Except.error Err.ValidationError
  else
    let t : Todo := ⟨s.nextId, strTrim title, false⟩
    Except.ok (t, ⟨s.rows ++ [t], s.nextId + 1⟩)

/-- The store state after a `create` call: the new state on success, the
old state on failure (the transaction is rolled back and no partial row is
ever visible, spec §4.1). -/
def TodoStore.createState (s : Store) (title : String) : Store :=
  match TodoStore.create s title with
  | Except.ok (_, s2) => s2
  | Except.error _ => s

/-- Modelled from the spec: `Update(id, partial fields)` of the missing
`backend/app/crud.py`: validation first (`validUpdate`), then `NotFound` if
no row matches `id`; on success only the supplied fields are assigned
(via the built assignment set) and the full post-update row is returned
(spec §4.1, §9). -/
def TodoStore.update (s : Store) (id : Nat) (u : UpdateFields) :
    Except Err (Todo × Store) :=
  if validUpdate u then
    match s.rows.find? (fun t => t.id == id) with
    | none => Except.error Err.NotFound
    | some row =>
        let row2 := row.applyAssignments (buildAssignments u)
        Except.ok (row2,
          ⟨s.rows.map (fun r =>
              if r.id == id then r.applyAssignments (buildAssignments u) else r),
           s.nextId⟩)
  else
    Except.error Err.ValidationError

/-- The store state after an `update` call: the new state on success, the
old state on failure (rollback, spec §4.1). -/
def TodoStore.updateState (s : Store) (id : Nat) (u : UpdateFields) : Store :=
  match TodoStore.update s id u with
  | Except.ok (_, s2) => s2
  | Except.error _ => s

/-- Modelled from the spec: `Delete(id)` of the missing
`backend/app/crud.py`: a transactional delete; the number of affected rows
indicates existence (0 ⇒ not-found signal, 1 ⇒ success) (spec §4.1, §6);
on success the affected-row count is returned with the new state. -/
def TodoStore.delete (s : Store) (id : Nat) : Except Err (Nat × Store) :=
  if (s.rows.filter (fun t => t.id == id)).length == 0 then
    Except.error Err.NotFound
  else
    Except.ok ((s.rows.filter (fun t => t.id == id)).length,
      ⟨s.rows.filter (fun t => !(t.id == id)), s.nextId⟩)

/-- The store state after a `delete` call: the new state on success, the
old state on failure (rollback, spec §4.1). -/
def TodoStore.deleteState (s : Store) (id : Nat) : Store :=
  match TodoStore.delete s id with
  | Except.ok (_, s2) => s2
  | Except.error _ => s

/-- Modelled from the spec: the HTTP status code each backend error kind
maps to at the boundary (spec §6: "each backend error kind maps to a
distinct HTTP status (validation → 4xx client error, not-found → 404,
storage failure → 5xx)"). -/
def Err.toStatus : Err → Nat
  | Err.ValidationError => 422
  | Err.NotFound => 404
  | Err.StorageError => 500

/-- An HTTP status code counts as a success (`res.ok` in `fetch`) exactly
when it is in the 2xx range. -/
def statusIsSuccess (n : Nat) : Bool :=
  decide (200 ≤ n ∧ n < 300)

/-- A full keyset-paginated traversal: repeatedly call `TodoStore.list`
with `{limit, after_id := cursor}`, advancing the cursor to the id of the
last row of each page, until a page comes back empty.  `fuel` bounds the
number of pages (any `fuel ≥ s.rows.length` is enough). -/
def traverse (s : Store) (limit : Nat) : Nat → Nat → List Todo
  | _, 0 => []
  | cursor, fuel + 1 =>
    match (TodoStore.list s (some ⟨limit, cursor⟩)).getLast? with
    | none => []
    | some lastRow =>
        TodoStore.list s (some ⟨limit, cursor⟩) ++ traverse s limit lastRow.id fuel

/-- The response as seen by the fetch wrappers of `frontend/src/api.ts`:
the `ok` flag of the HTTP response and the body that `res.json()` would
produce. -/
structure FetchResponse (α : Type) where
  ok : Bool
  body : α

/-- From `frontend/src/api.ts` `listTodos`: on `res.ok` return the parsed
body, otherwise throw `Error('Failed to fetch todos')`. -/
def listTodos (res : FetchResponse (List Todo)) : Except String (List Todo) :=
  if res.ok then Except.ok res.body else Except.error "Failed to fetch todos"

/-- From `frontend/src/api.ts` `createTodo`: POST `{title}`; on `res.ok`
return the parsed body, otherwise throw `Error('Failed to create')`. -/
def createTodo (title : String) (res : FetchResponse Todo) : Except String Todo :=
  if res.ok then Except.ok res.body else Except.error "Failed to create"

/-- From `frontend/src/api.ts` `updateTodo`: PATCH the partial `data`; on
`res.ok` return the parsed body, otherwise throw `Error('Failed to update')`. -/
def updateTodo (id : Nat) (data : UpdateFields) (res : FetchResponse Todo) :
    Except String Todo :=
  if res.ok then Except.ok res.body else Except.error "Failed to update"

/-- From `frontend/src/api.ts` `deleteTodo`: DELETE; on `res.ok` return
unit, otherwise throw `Error('Failed to delete')`. -/
def deleteTodo (id : Nat) (res : FetchResponse Unit) : Except String Unit :=
  if res.ok then Except.ok () else Except.error "Failed to delete"

/-- The React state of `App` (`frontend/src/App.tsx`): `todos`, `loading`,
`error`. -/
structure AppState where
  todos : List Todo
  loading : Bool
  error : Option String
deriving DecidableEq, Repr

namespace App

/-- From `frontend/src/App.tsx` `load`: `setLoading(true); setError(null);`
then await `listTodos()`; on success `setTodos(data)`, on failure
`setError(e?.message ?? '読み込みに失敗しました')` (the caught exception's
message may be absent, hence `Option String`); in `finally`,
`setLoading(false)`. The argument `result` is the outcome of the awaited
`listTodos()` call. -/
def load (st : AppState) (result : Except (Option String) (List Todo)) :
    AppState :=
  let st1 : AppState := { st with loading := true, error := none }
  match result with
  | Except.ok data => { st1 with todos := data, loading := false }
  | Except.error m =>
      { st1 with error := some (m.getD "読み込みに失敗しました"), loading := false }

end App

/-- The React state of `TodoForm` (`frontend/src/components/TodoForm.tsx`):
`title`, `loading`. -/
structure FormState where
  title : String
  loading : Bool
deriving DecidableEq, Repr

/-- Observable outcome of one run of `TodoForm.submit`: the final component
state, how many times `onCreated` was invoked, the title string passed to
`createTodo` (none when the empty-title guard returned early), and whether
the run re-threw the `createTodo` rejection. -/
structure SubmitResult where
  state : FormState
  onCreatedCalls : Nat
  sent : Option String
  threw : Bool
deriving DecidableEq, Repr

namespace TodoForm

/-- From `frontend/src/components/TodoForm.tsx` `submit`:
`if (!title.trim()) return;` then `setLoading(true)`;
`try { await createTodo(title.trim()); setTitle(''); onCreated() }
finally { setLoading(false) }`.  The argument `createResult` is the outcome
of the awaited `createTodo` call; on rejection the exception propagates out
of `submit` (no catch), but the `finally` clause still clears `loading`. -/
def submit (st : FormState) (createResult : Except String Todo) : SubmitResult :=
  if strTrim st.title = "" then
    ⟨st, 0, none, false⟩
  else
    match createResult with
    | Except.ok _ => ⟨⟨"", false⟩, 1, some (strTrim st.title), false⟩
    | Except.error _ => ⟨⟨st.title, false⟩, 0, some (strTrim st.title), true⟩

end TodoForm

namespace TodoList

/-- From `frontend/src/components/TodoList.tsx` `toggle`: the PATCH request
issued is `updateTodo(t.id, { completed: !t.completed })` — `completed` is
the only supplied field, with the negation of the rendered value. -/
def toggleRequest (t : Todo) : Nat × UpdateFields :=
  (t.id, ⟨none, some (!t.completed)⟩)

end TodoList

/-- A sample store holding five Todos with ids {1,2,3,4,5}
(spec §8 keyset-pagination example). -/
def store5 : Store :=
  ⟨[⟨1, "a", false⟩, ⟨2, "b", false⟩, ⟨3, "c", false⟩,
    ⟨4, "d", false⟩, ⟨5, "e", false⟩], 6⟩

/-! ## Helper lemmas -/

/-- `validUpdate` succeeds exactly when at least one field is present and a
present title is non-empty after trimming. -/
theorem validUpdate_iff (u : UpdateFields) :
    validUpdate u = true ↔
      ((u.title.isSome ∨ u.completed.isSome) ∧
       ∀ v, u.title = some v → strTrim v ≠ "") := by
  obtain ⟨ot, oc⟩ := u
  cases ot <;> cases oc <;> simp [validUpdate, buildAssignments]

/-- `update` avoids `ValidationError` exactly when `validUpdate` holds. -/
theorem update_ne_validationError_iff (s : Store) (id : Nat) (u : UpdateFields) :
    TodoStore.update s id u ≠ Except.error Err.ValidationError ↔
      validUpdate u = true := by
  unfold TodoStore.update
  by_cases hv : validUpdate u
  · simp only [hv, if_true, ne_eq, iff_true]
    cases hfind : s.rows.find? (fun t => t.id == id) <;> simp
  · simp [hv]

/-- `find?` over a mapped list, when the map preserves the predicate. -/
theorem find?_map_pred (f : Todo → Todo) (p : Todo → Bool)
    (hf : ∀ r, p (f r) = p r) (l : List Todo) :
    (l.map f).find? p = (l.find? p).map f := by
  induction l with
  | nil => rfl
  | cons x xs ih =>
    by_cases h : p x = true
    · rw [List.map_cons, List.find?_cons_of_pos _ (by rw [hf]; exact h),
        List.find?_cons_of_pos _ h, Option.map_some']
    · rw [List.map_cons,
        List.find?_cons_of_neg _ (by rw [hf]; exact Bool.not_eq_true _ ▸ h),
        List.find?_cons_of_neg _ h, ih]

/-- `find?` skips a prefix on which the predicate is everywhere false. -/
theorem find?_append_right (p : Todo → Bool) (l1 l2 : List Todo)
    (h : ∀ x ∈ l1, p x = false) :
    (l1 ++ l2).find? p = l2.find? p := by
  induction l1 with
  | nil => rfl
  | cons x xs ih =>
    rw [List.cons_append,
      List.find?_cons_of_neg _ (by simp [h x (List.mem_cons_self x xs)])]
    exact ih (fun y hy => h y (List.mem_cons_of_mem x hy))

/-- In a store whose rows carry pairwise-distinct ids, at most one row
matches a given id. -/
theorem length_filter_id_le_one (l : List Todo) (id : Nat)
    (h : (l.map Todo.id).Nodup) :
    (l.filter (fun t => t.id == id)).length ≤ 1 := by
  induction l with
  | nil => simp
  | cons x xs ih =>
    rw [List.map_cons, List.nodup_cons] at h
    by_cases hx : (x.id == id) = true
    · have hxs : xs.filter (fun t => t.id == id) = [] := by
        rw [List.filter_eq_nil_iff]
        intro a ha hpa
        have haid : a.id = id := by simpa using hpa
        have hxid : x.id = id := by simpa using hx
        exact h.1 ((haid.trans hxid.symm) ▸ List.mem_map_of_mem Todo.id ha)
      simp [List.filter_cons, hx, hxs]
    · rw [List.filter_cons, if_neg (by simp [hx])]
      exact ih h.2

/-- The last element of a list, when it exists, is a member. -/
theorem mem_of_getLast?_some {α : Type} {l : List α} {a : α}
    (h : l.getLast? = some a) : a ∈ l := by
  induction l with
  | nil => simp at h
  | cons x xs ih =>
    cases xs with
    | nil =>
      simp at h
      subst h
      exact List.mem_cons_self _ _
    | cons y ys =>
      rw [List.getLast?_cons_cons] at h
      exact List.mem_cons_of_mem x (ih h)

/-- In a list whose ids are strictly increasing, filtering strictly above
the last id of `l.take k` drops exactly the first `k` elements. -/
theorem filter_gt_last_take (L : List Todo) :
    ∀ (k : Nat) (p : Todo),
    L.Pairwise (fun a b => a.id < b.id) →
    (L.take k).getLast? = some p →
    L.filter (fun t => decide (p.id < t.id)) = L.drop k := by
  induction L with
  | nil => intro k p _ h; simp at h
  | cons x xs ih =>
    intro k p hs h
    rw [List.pairwise_cons] at hs
    cases k with
    | zero => simp at h
    | succ k =>
      rw [List.take_succ_cons] at h
      cases htk : xs.take k with
      | nil =>
        rw [htk] at h
        have hp : x = p := by simpa using h
        subst hp
        rw [List.drop_succ_cons]
        rcases List.take_eq_nil_iff.mp htk with hk | hxs
        · subst hk
          rw [List.drop_zero, List.filter_cons, if_neg (by simp)]
          exact List.filter_eq_self.mpr (fun y hy => by simpa using hs.1 y hy)
        · subst hxs
          simp
      | cons y ys =>
        rw [htk, List.getLast?_cons_cons] at h
        have h2 : (xs.take k).getLast? = some p := by rw [htk]; exact h
        have hpmem : p ∈ xs := List.take_subset k xs (mem_of_getLast?_some h2)
        have hxp : x.id < p.id := hs.1 p hpmem
        rw [List.drop_succ_cons, List.filter_cons, if_neg (by simp; omega)]
        exact ih k p hs.2 h2

/-- Filtering above a higher cursor factors through filtering above a lower
one. -/
theorem filter_gt_trans (L : List Todo) (c pid : Nat) (hcp : c ≤ pid) :
    (L.filter (fun t => decide (c < t.id))).filter
        (fun t => decide (pid < t.id))
      = L.filter (fun t => decide (pid < t.id)) := by
  induction L with
  | nil => rfl
  | cons x xs ih =>
    by_cases h1 : pid < x.id
    · have h2 : c < x.id := Nat.lt_of_le_of_lt hcp h1
      simp [List.filter_cons, h1, h2, ih]
    · by_cases h2 : c < x.id <;> simp [List.filter_cons, h1, h2, ih]

/-- A keyset traversal from cursor `c` returns exactly the rows with
`id > c`, in order — each surviving row once, none skipped, none repeated —
when the store's ids are strictly increasing and each page asks for at
least one row. -/
theorem traverse_eq_filter (fuel : Nat) :
    ∀ (s : Store) (limit c : Nat),
    s.rows.Pairwise (fun a b => a.id < b.id) → 1 ≤ limit →
    (s.rows.filter (fun t => decide (c < t.id))).length ≤ fuel →
    traverse s limit c fuel = s.rows.filter (fun t => decide (c < t.id)) := by
  induction fuel with
  | zero =>
    intro s limit c _ _ hlen
    rw [List.eq_nil_of_length_eq_zero (Nat.le_zero.mp hlen)]
    rfl
  | succ fuel ih =>
    intro s limit c hs hl hlen
    have hpage : TodoStore.list s (some ⟨limit, c⟩)
        = (s.rows.filter (fun t => decide (c < t.id))).take limit := rfl
    simp only [traverse]
    cases hlast : (TodoStore.list s (some ⟨limit, c⟩)).getLast? with
    | none =>
      rw [hpage] at hlast
      rcases List.take_eq_nil_iff.mp (List.getLast?_eq_none_iff.mp hlast) with
        h0 | hF
      · omega
      · exact hF.symm
    | some lastRow =>
      rw [hpage] at hlast
      have hmemF : lastRow ∈ s.rows.filter (fun t => decide (c < t.id)) :=
        List.take_subset limit _ (mem_of_getLast?_some hlast)
      have hc : c < lastRow.id := by
        simpa using (List.mem_filter.mp hmemF).2
      have hdropF : (s.rows.filter (fun t => decide (c < t.id))).filter
            (fun t => decide (lastRow.id < t.id))
          = (s.rows.filter (fun t => decide (c < t.id))).drop limit :=
        filter_gt_last_take _ limit lastRow (hs.filter _) hlast
      have hnew : s.rows.filter (fun t => decide (lastRow.id < t.id))
          = (s.rows.filter (fun t => decide (c < t.id))).drop limit := by
        rw [← hdropF]
        exact (filter_gt_trans s.rows c lastRow.id (Nat.le_of_lt hc)).symm
      have hlen2 : (s.rows.filter
          (fun t => decide (lastRow.id < t.id))).length ≤ fuel := by
        rw [hnew, List.length_drop]
        omega
      show (s.rows.filter (fun t => decide (c < t.id))).take limit
            ++ traverse s limit lastRow.id fuel
          = s.rows.filter (fun t => decide (c < t.id))
      rw [ih s limit lastRow.id hs hl hlen2, hnew]
      exact List.take_append_drop limit _

/-- `get` reports `NotFound` when no row matches the id. -/
theorem get_notFound_of_no_match (s : Store) (id : Nat)
    (h : ∀ x ∈ s.rows, (x.id == id) = false) :
    TodoStore.get s id = Except.error Err.NotFound := by
  unfold TodoStore.get
  rw [List.find?_eq_none.mpr (fun x hx => by simp [h x hx])]

/-- `delete` reports `NotFound` when no row matches the id (affected-row
count 0). -/
theorem delete_notFound_of_no_match (s : Store) (id : Nat)
    (h : (s.rows.filter (fun r => r.id == id)).length = 0) :
    TodoStore.delete s id = Except.error Err.NotFound := by
  unfold TodoStore.delete
  rw [h]
  rfl

/-- The rows after a `delete` are either unchanged (the id was absent) or
the original rows minus the matching ones. -/
theorem deleteState_rows (s : Store) (d : Nat) :
    (TodoStore.deleteState s d).rows = s.rows ∨
    (TodoStore.deleteState s d).rows
      = s.rows.filter (fun r => !(r.id == d)) := by
  by_cases h : (s.rows.filter (fun t => t.id == d)).length = 0
  · left
    simp [TodoStore.deleteState, delete_notFound_of_no_match s d h]
  · right
    have hd : TodoStore.delete s d
        = Except.ok ((s.rows.filter (fun t => t.id == d)).length,
          ⟨s.rows.filter (fun t => !(t.id == d)), s.nextId⟩) := by
      unfold TodoStore.delete
      rw [if_neg (by simpa using h)]
    simp [TodoStore.deleteState, hd]

/-! ## Claim theorems -/

/-- C1: for every title that is empty after trimming, `create` fails with
`ValidationError` and a `list` performed after the failed create returns
the same sequence as a `list` performed before it (no row persisted). -/
theorem C1_create_empty_title_rejected (s : Store) (title : String)
    (h : strTrim title = "") :
    TodoStore.create s title = Except.error Err.ValidationError ∧
    ∀ pag, TodoStore.list (TodoStore.createState s title) pag
      = TodoStore.list s pag := by
  have hc : TodoStore.create s title = Except.error Err.ValidationError := by
    simp [TodoStore.create, h]
  exact ⟨hc, fun pag => by simp [TodoStore.createState, hc]⟩

/-- C1 witness: `create` on `"   "` (and on `""`) fails on the concrete
five-row store and leaves `list` unchanged. -/
theorem C1_witness :
    (strTrim "   " = "" ∧
      TodoStore.create store5 "   " = Except.error Err.ValidationError ∧
      ∀ pag, TodoStore.list (TodoStore.createState store5 "   ") pag
        = TodoStore.list store5 pag) ∧
    (strTrim "" = "" ∧
      TodoStore.create store5 "" = Except.error Err.ValidationError ∧
      ∀ pag, TodoStore.list (TodoStore.createState store5 "") pag
        = TodoStore.list store5 pag) :=
  ⟨⟨by decide, C1_create_empty_title_rejected store5 "   " (by decide)⟩,
   ⟨by decide, C1_create_empty_title_rejected store5 "" (by decide)⟩⟩

/-- C2: for every existing id, an update supplying only `completed` changes
only `completed`: a subsequent `get` returns the post-update row with the
original title (and id) unchanged. -/
theorem C2_completed_only_update_keeps_title (s : Store) (id : Nat) (t : Todo)
    (h : TodoStore.get s id = Except.ok t) :
    ∃ t2 s2, TodoStore.update s id ⟨none, some true⟩ = Except.ok (t2, s2) ∧
      TodoStore.get s2 id = Except.ok t2 ∧
      t2.title = t.title ∧ t2.id = t.id ∧ t2.completed = true := by
  have hf : s.rows.find? (fun r => r.id == id) = some t := by
    unfold TodoStore.get at h
    cases hfind : s.rows.find? (fun r => r.id == id) <;> rw [hfind] at h
    · exact absurd h (by simp)
    · exact congrArg some (Except.ok.inj h)
  have hpt0 := List.find?_some hf
  have hpt : (t.id == id) = true := hpt0
  have hpres : ∀ r : Todo,
      ((if r.id == id then
          r.applyAssignments (buildAssignments ⟨none, some true⟩)
        else r).id == id) = (r.id == id) := by
    intro r
    by_cases hr : (r.id == id) = true
    · rw [if_pos hr]; rfl
    · rw [if_neg hr]
  have hv : validUpdate ⟨none, some true⟩ = true := rfl
  refine ⟨t.applyAssignments (buildAssignments ⟨none, some true⟩),
    ⟨s.rows.map (fun r =>
        if r.id == id then r.applyAssignments (buildAssignments ⟨none, some true⟩)
        else r), s.nextId⟩, ?_, ?_, rfl, rfl, rfl⟩
  · unfold TodoStore.update
    rw [if_pos hv, hf]
  · unfold TodoStore.get
    rw [find?_map_pred _ _ hpres, hf, Option.map_some', if_pos hpt]

/-- C2 witness: updating only `completed` on id 2 of the concrete store
keeps the original title `"b"`. -/
theorem C2_witness :
    ∃ t2 s2, TodoStore.update store5 2 ⟨none, some true⟩ = Except.ok (t2, s2) ∧
      TodoStore.get s2 2 = Except.ok t2 ∧
      t2.title = (⟨2, "b", false⟩ : Todo).title ∧
      t2.id = (⟨2, "b", false⟩ : Todo).id ∧ t2.completed = true :=
  C2_completed_only_update_keeps_title store5 2 ⟨2, "b", false⟩ rfl

/-- C3: on ids {1,2,3,4,5}, `list({limit := 2, after_id := 2})` returns
exactly the Todos with ids [3,4] in ascending order; in general a
paginated `list` returns at most `limit` Todos, all with `id > after_id`;
and after deleting any row between calls, the keyset traversal continued
from any cursor returns exactly the surviving rows beyond the cursor, in
order, each exactly once — no surviving row is skipped or repeated.  The
concluding concrete conjunct replays the spec's scenario: page [1,2], then
delete id 3, then the continued traversal yields [4,5]. -/
theorem C3_keyset_pagination :
    TodoStore.list store5 (some ⟨2, 2⟩)
      = [⟨3, "c", false⟩, ⟨4, "d", false⟩] ∧
    (∀ (s : Store) (p : Pagination),
      (TodoStore.list s (some p)).length ≤ p.limit ∧
      ∀ t ∈ TodoStore.list s (some p), p.after_id < t.id) ∧
    (∀ (s : Store) (limit c d fuel : Nat),
      s.rows.Pairwise (fun a b => a.id < b.id) → 1 ≤ limit →
      s.rows.length ≤ fuel →
      traverse (TodoStore.deleteState s d) limit c fuel
        = (TodoStore.deleteState s d).rows.filter
            (fun t => decide (c < t.id))) ∧
    TodoStore.list store5 (some ⟨2, 0⟩)
        ++ traverse (TodoStore.deleteState store5 3) 2 2 3
      = [⟨1, "a", false⟩, ⟨2, "b", false⟩, ⟨4, "d", false⟩,
         ⟨5, "e", false⟩] := by
  refine ⟨by decide, ?_, ?_, by decide⟩
  · intro s p
    refine ⟨?_, ?_⟩
    · calc (TodoStore.list s (some p)).length
          = ((s.rows.filter
              (fun t => decide (p.after_id < t.id))).take p.limit).length := rfl
        _ ≤ p.limit := List.length_take_le _ _
    · intro t ht
      have hm : t ∈ s.rows.filter (fun t => decide (p.after_id < t.id)) :=
        List.take_subset _ _ ht
      simpa using (List.mem_filter.mp hm).2
  · intro s limit c d fuel hs hl hf
    have hrows : (TodoStore.deleteState s d).rows.length ≤ s.rows.length := by
      rcases deleteState_rows s d with h | h
      · rw [h]
      · rw [h]; exact List.length_filter_le _ _
    refine traverse_eq_filter fuel (TodoStore.deleteState s d) limit c ?_ hl ?_
    · rcases deleteState_rows s d with h | h
      · rw [h]; exact hs
      · rw [h]; exact hs.filter _
    · exact Nat.le_trans
        (Nat.le_trans (List.length_filter_le _ _) hrows) hf

/-- C3 witness: deleting id 3 from the five-row store and continuing the
traversal from cursor 2 with pages of 2 yields exactly the surviving rows
[4,5] — none skipped, none repeated. -/
theorem C3_witness :
    (traverse (TodoStore.deleteState store5 3) 2 2 5
       = (TodoStore.deleteState store5 3).rows.filter
           (fun t => decide (2 < t.id))) ∧
    (TodoStore.deleteState store5 3).rows.filter (fun t => decide (2 < t.id))
       = [⟨4, "d", false⟩, ⟨5, "e", false⟩] :=
  ⟨C3_keyset_pagination.2.2.1 store5 2 2 3 5 (by decide) (by decide)
     (by decide),
   by decide⟩

/-- C4: the three error kinds map to pairwise distinct HTTP statuses, none
of which counts as a success; and each fetch wrapper in
`frontend/src/api.ts` turns every non-ok response into a thrown error,
never into a success. -/
theorem C4_errors_distinguishable_never_success :
    (∀ e1 e2 : Err, Err.toStatus e1 = Err.toStatus e2 → e1 = e2) ∧
    (∀ e : Err, statusIsSuccess (Err.toStatus e) = false) ∧
    (∀ res : FetchResponse (List Todo), res.ok = false →
      listTodos res = Except.error "Failed to fetch todos") ∧
    (∀ (title : String) (res : FetchResponse Todo), res.ok = false →
      createTodo title res = Except.error "Failed to create") ∧
    (∀ (id : Nat) (u : UpdateFields) (res : FetchResponse Todo), res.ok = false →
      updateTodo id u res = Except.error "Failed to update") ∧
    (∀ (id : Nat) (res : FetchResponse Unit), res.ok = false →
      deleteTodo id res = Except.error "Failed to delete") := by
  refine ⟨?_, ?_, ?_, ?_, ?_, ?_⟩
  · intro e1 e2 h
    cases e1 <;> cases e2 <;> first | rfl | simp [Err.toStatus] at h
  · intro e; cases e <;> rfl
  · intro res h; simp [listTodos, h]
  · intro title res h; simp [createTodo, h]
  · intro id u res h; simp [updateTodo, h]
  · intro id res h; simp [deleteTodo, h]

/-- C4 witness: a concrete non-ok response is reported as an error by every
wrapper, and the three statuses are concretely distinct non-successes. -/
theorem C4_witness :
    listTodos ⟨false, []⟩ = Except.error "Failed to fetch todos" ∧
    createTodo "x" ⟨false, ⟨1, "x", false⟩⟩ = Except.error "Failed to create" ∧
    updateTodo 1 ⟨none, some true⟩ ⟨false, ⟨1, "x", false⟩⟩
      = Except.error "Failed to update" ∧
    deleteTodo 1 ⟨false, ()⟩ = Except.error "Failed to delete" ∧
    statusIsSuccess (Err.toStatus Err.ValidationError) = false :=
  ⟨C4_errors_distinguishable_never_success.2.2.1 ⟨false, []⟩ rfl,
   C4_errors_distinguishable_never_success.2.2.2.1 "x" ⟨false, ⟨1, "x", false⟩⟩ rfl,
   C4_errors_distinguishable_never_success.2.2.2.2.1 1 ⟨none, some true⟩
     ⟨false, ⟨1, "x", false⟩⟩ rfl,
   C4_errors_distinguishable_never_success.2.2.2.2.2 1 ⟨false, ()⟩ rfl,
   C4_errors_distinguishable_never_success.2.1 Err.ValidationError⟩

/-- C5: `update(id, {})` fails with `ValidationError` and leaves the store
unchanged; an update is accepted (does not fail validation) exactly when at
least one of `title`/`completed` is present and a present title is
non-empty after trimming. -/
theorem C5_update_no_fields_rejected (s : Store) (id : Nat) :
    TodoStore.update s id ⟨none, none⟩ = Except.error Err.ValidationError ∧
    TodoStore.updateState s id ⟨none, none⟩ = s ∧
    ∀ u : UpdateFields,
      TodoStore.update s id u ≠ Except.error Err.ValidationError ↔
        ((u.title.isSome ∨ u.completed.isSome) ∧
         ∀ v, u.title = some v → strTrim v ≠ "") := by
  have h0 : TodoStore.update s id ⟨none, none⟩
      = Except.error Err.ValidationError := by
    simp [TodoStore.update, validUpdate, buildAssignments]
  exact ⟨h0, by simp [TodoStore.updateState, h0],
    fun u => (update_ne_validationError_iff s id u).trans (validUpdate_iff u)⟩

/-- C5 witness: on the concrete store, the empty update fails and leaves
the state intact, while `{completed := true}` passes validation. -/
theorem C5_witness :
    TodoStore.update store5 1 ⟨none, none⟩ = Except.error Err.ValidationError ∧
    TodoStore.updateState store5 1 ⟨none, none⟩ = store5 ∧
    TodoStore.update store5 1 ⟨none, some true⟩
      ≠ Except.error Err.ValidationError :=
  ⟨(C5_update_no_fields_rejected store5 1).1,
   (C5_update_no_fields_rejected store5 1).2.1,
   ((C5_update_no_fields_rejected store5 1).2.2 ⟨none, some true⟩).mpr
     (by simp)⟩

/-- C6: for every title that is non-empty after trimming, `create` followed
by `get` of the returned id yields a Todo whose title is exactly the
trimmed input and whose `completed` is false.  The hypothesis that all
stored ids are below `nextId` is the store invariant (ids are assigned
monotonically and never reused, spec §3). -/
theorem C6_create_then_get (s : Store) (title : String)
    (h1 : strTrim title ≠ "") (h2 : ∀ t ∈ s.rows, t.id < s.nextId) :
    ∃ todo s2, TodoStore.create s title = Except.ok (todo, s2) ∧
      TodoStore.get s2 todo.id = Except.ok todo ∧
      todo.title = strTrim title ∧ todo.completed = false := by
  have hb : (strTrim title == "") = false := by simpa using h1
  refine ⟨⟨s.nextId, strTrim title, false⟩,
    ⟨s.rows ++ [⟨s.nextId, strTrim title, false⟩], s.nextId + 1⟩,
    ?_, ?_, rfl, rfl⟩
  · unfold TodoStore.create
    rw [if_neg (by simp [hb])]
  · unfold TodoStore.get
    rw [find?_append_right _ _ _ ?hpre, List.find?_cons_of_pos _ (by simp)]
    case hpre =>
      intro x hx
      simpa using Nat.ne_of_lt (h2 x hx)

/-- C6 witness: creating `" hello "` on the concrete store and getting the
returned id yields the trimmed title `"hello"` with `completed = false`. -/
theorem C6_witness :
    strTrim " hello " ≠ "" ∧
    ∃ todo s2, TodoStore.create store5 " hello " = Except.ok (todo, s2) ∧
      TodoStore.get s2 todo.id = Except.ok todo ∧
      todo.title = strTrim " hello " ∧ todo.completed = false :=
  ⟨by decide,
   C6_create_then_get store5 " hello " (by decide) (by decide)⟩

/-- C7: deleting an existing id succeeds with affected-row count 1, after
which `get` of that id fails with `NotFound` and a repeated delete also
fails with `NotFound` (affected-row count 0). -/
theorem C7_delete_then_not_found (s : Store) (id : Nat) (t : Todo)
    (hnd : (s.rows.map Todo.id).Nodup)
    (h : TodoStore.get s id = Except.ok t) :
    TodoStore.delete s id
        = Except.ok (1, ⟨s.rows.filter (fun r => !(r.id == id)), s.nextId⟩) ∧
    TodoStore.get (TodoStore.deleteState s id) id
        = Except.error Err.NotFound ∧
    TodoStore.delete (TodoStore.deleteState s id) id
        = Except.error Err.NotFound := by
  have hf : s.rows.find? (fun r => r.id == id) = some t := by
    unfold TodoStore.get at h
    cases hfind : s.rows.find? (fun r => r.id == id) <;> rw [hfind] at h
    · exact absurd h (by simp)
    · exact congrArg some (Except.ok.inj h)
  have hpt0 := List.find?_some hf
  have hpt : (t.id == id) = true := hpt0
  have hmem : t ∈ s.rows.filter (fun r => r.id == id) :=
    List.mem_filter.mpr ⟨List.mem_of_find?_eq_some hf, hpt⟩
  have hlen : (s.rows.filter (fun r => r.id == id)).length = 1 :=
    Nat.le_antisymm (length_filter_id_le_one s.rows id hnd)
      (List.length_pos.mpr (List.ne_nil_of_mem hmem))
  have hdel : TodoStore.delete s id
      = Except.ok (1, ⟨s.rows.filter (fun r => !(r.id == id)), s.nextId⟩) := by
    unfold TodoStore.delete
    rw [hlen]
    rfl
  have hstate : TodoStore.deleteState s id
      = ⟨s.rows.filter (fun r => !(r.id == id)), s.nextId⟩ := by
    unfold TodoStore.deleteState
    rw [hdel]
  refine ⟨hdel, ?_, ?_⟩
  · rw [hstate]
    exact get_notFound_of_no_match _ id
      (fun x hx => by simpa using (List.mem_filter.mp hx).2)
  · rw [hstate]
    refine delete_notFound_of_no_match _ id ?_
    rw [List.length_eq_zero, List.filter_eq_nil_iff]
    intro a ha hpa
    exact absurd hpa (by simpa using (List.mem_filter.mp ha).2)

/-- C7 witness: deleting id 3 from the concrete store succeeds with count
1; the repeated `get` and `delete` both report `NotFound`. -/
theorem C7_witness :
    TodoStore.delete store5 3
        = Except.ok (1,
          ⟨store5.rows.filter (fun r => !(r.id == 3)), store5.nextId⟩) ∧
    TodoStore.get (TodoStore.deleteState store5 3) 3
        = Except.error Err.NotFound ∧
    TodoStore.delete (TodoStore.deleteState store5 3) 3
        = Except.error Err.NotFound :=
  C7_delete_then_not_found store5 3 ⟨3, "c", false⟩ (by decide) rfl

/-- C8: `App.load` always finishes with `loading = false`; on failure the
previous `todos` are kept and `error` is a non-null message; on success
`todos` is replaced by the fetched data and `error` is null. -/
theorem C8_load_resolves (st : AppState)
    (r : Except (Option String) (List Todo)) :
    (App.load st r).loading = false ∧
    (∀ m, r = Except.error m →
      (App.load st r).todos = st.todos ∧ (App.load st r).error ≠ none) ∧
    (∀ d, r = Except.ok d →
      (App.load st r).todos = d ∧ (App.load st r).error = none) := by
  cases r <;> simp [App.load]

/-- C8 witness: concrete failure and success runs of `App.load`. -/
theorem C8_witness :
    ((App.load ⟨[⟨1, "a", false⟩], false, none⟩ (Except.error none)).todos
        = [⟨1, "a", false⟩] ∧
      (App.load ⟨[⟨1, "a", false⟩], false, none⟩ (Except.error none)).error
        ≠ none) ∧
    ((App.load ⟨[], true, some "old"⟩
        (Except.ok [⟨2, "b", true⟩])).todos = [⟨2, "b", true⟩] ∧
      (App.load ⟨[], true, some "old"⟩
        (Except.ok [⟨2, "b", true⟩])).error = none) :=
  ⟨(C8_load_resolves ⟨[⟨1, "a", false⟩], false, none⟩
      (Except.error none)).2.1 none rfl,
   (C8_load_resolves ⟨[], true, some "old"⟩
      (Except.ok [⟨2, "b", true⟩])).2.2 [⟨2, "b", true⟩] rfl⟩

/-- C9: past the empty-title guard, a rejected `createTodo` leaves the
title state intact and never calls `onCreated`; a resolved one clears the
title and calls `onCreated` exactly once; `loading` is false after either
run. -/
theorem C9_submit_outcomes (st : FormState) (r : Except String Todo)
    (h : strTrim st.title ≠ "") :
    (TodoForm.submit st r).state.loading = false ∧
    (∀ e, r = Except.error e →
      (TodoForm.submit st r).state.title = st.title ∧
      (TodoForm.submit st r).onCreatedCalls = 0) ∧
    (∀ t, r = Except.ok t →
      (TodoForm.submit st r).state.title = "" ∧
      (TodoForm.submit st r).onCreatedCalls = 1) := by
  cases r <;> simp [TodoForm.submit, h]

/-- C9 witness: concrete rejected and resolved runs past the guard. -/
theorem C9_witness :
    ((TodoForm.submit ⟨" x ", false⟩
        (Except.error "Failed to create")).state.title = " x " ∧
      (TodoForm.submit ⟨" x ", false⟩
        (Except.error "Failed to create")).onCreatedCalls = 0) ∧
    ((TodoForm.submit ⟨" x ", false⟩
        (Except.ok ⟨1, "x", false⟩)).state.title = "" ∧
      (TodoForm.submit ⟨" x ", false⟩
        (Except.ok ⟨1, "x", false⟩)).onCreatedCalls = 1) :=
  ⟨(C9_submit_outcomes ⟨" x ", false⟩ (Except.error "Failed to create")
      (by decide)).2.1 "Failed to create" rfl,
   (C9_submit_outcomes ⟨" x ", false⟩ (Except.ok ⟨1, "x", false⟩)
      (by decide)).2.2 ⟨1, "x", false⟩ rfl⟩

/-- C10: `toggle` issues `updateTodo(t.id, {completed := !t.completed})`
with `completed` as the only supplied field, and toggling the toggled value
requests the original `completed` (negation is an involution). -/
theorem C10_toggle_negates_only_completed (t : Todo) :
    (TodoList.toggleRequest t).1 = t.id ∧
    (TodoList.toggleRequest t).2.title = none ∧
    (TodoList.toggleRequest t).2.completed = some (!t.completed) ∧
    (TodoList.toggleRequest { t with completed := !t.completed }).2.completed
      = some t.completed := by
  simp [TodoList.toggleRequest]

end Todos
